import Mathlib

/-!
Verification of the render-graph rebuild controller in
`examples/debug_lines_ortho/main.rs` (the `ExampleGraph` implementation of
`GraphCreator`): the rebuild-detection (debounce) logic and the graph-assembly
procedure, embedded shallowly in Lean.
-/

/-- Window dimensions, compared by value. The source stores `ScreenDimensions`
(floating-point width/height); dimensions are only ever compared for equality
and cast to `u32` for the image extent, so we model the coordinates as
rationals. -/
structure ScreenDimensions where
  width : Rat
  height : Rat
deriving DecidableEq, Repr

/-- Rust `as u32` on a non-negative float value: truncate toward zero and
saturate at the type bounds (negative values clamp to 0). -/
def f32ToU32 (q : Rat) : Nat :=
  min (q.num / (q.den : Int)).toNat (2 ^ 32 - 1)

/-- A surface pixel format (`rendy::hal::format::Format`), opaque except for
the distinguished `D32Sfloat` used for the depth image. -/
inductive Format where
  | D32Sfloat : Format
  | other : Nat → Format
deriving DecidableEq, Repr

/-- A window surface handle produced by the factory; opaque. -/
structure Surface where
  id : Nat
deriving DecidableEq, Repr

/-- `rendy::hal::image::Kind::D2(width, height, layers, samples)`. -/
inductive ImageKind where
  | D2 : Nat → Nat → Nat → Nat → ImageKind
deriving DecidableEq, Repr

/-- `ClearValue`: either a color clear or a depth/stencil clear. -/
inductive ClearValue where
  | color : Rat → Rat → Rat → Rat → ClearValue
  | depthStencil : Rat → Nat → ClearValue
deriving DecidableEq, Repr

/-- An image resource node registered with the graph builder:
kind, mip levels, format, optional clear value. -/
structure ImageInfo where
  kind : ImageKind
  levels : Nat
  format : Format
  clear : Option ClearValue
deriving DecidableEq, Repr

/-- A render group inside a subpass; the example registers exactly one,
the debug-lines draw group (`DrawDebugLinesDesc::new().builder()`). -/
inductive RenderGroup where
  | drawDebugLines : RenderGroup
deriving DecidableEq, Repr

/-- The data collected by `SubpassBuilder` and frozen by `into_pass`:
draw groups, color attachments (image ids), optional depth-stencil
attachment (image id). -/
structure SubpassDesc where
  groups : List RenderGroup
  colors : List Nat
  depthStencil : Option Nat
deriving DecidableEq, Repr

/-- A pass node of the graph: a render pass, or a present node consuming an
image with explicit dependencies on earlier nodes (node ids). -/
inductive Node where
  | renderPass : SubpassDesc → Node
  | present : Surface → Nat → List Nat → Node
deriving DecidableEq, Repr

/-- `GraphBuilder`: image resources and pass nodes, each in creation order.
`create_image` returns the image's index, `add_node` the node's index. -/
structure GraphBuilderM where
  images : List ImageInfo
  nodes : List Node
deriving DecidableEq, Repr

def GraphBuilderM.new : GraphBuilderM := ⟨[], []⟩

def GraphBuilderM.create_image (g : GraphBuilderM) (kind : ImageKind) (levels : Nat)
    (format : Format) (clear : Option ClearValue) : Nat × GraphBuilderM :=
  (g.images.length, ⟨g.images ++ [⟨kind, levels, format, clear⟩], g.nodes⟩)

def GraphBuilderM.add_node (g : GraphBuilderM) (n : Node) : Nat × GraphBuilderM :=
  (g.nodes.length, ⟨g.images, g.nodes ++ [n]⟩)

/-- `SubpassBuilder` combinator state. -/
structure SubpassBuilder where
  groups : List RenderGroup
  colors : List Nat
  depthStencil : Option Nat
deriving DecidableEq, Repr

def SubpassBuilder.new : SubpassBuilder := ⟨[], [], none⟩

def SubpassBuilder.with_group (b : SubpassBuilder) (g : RenderGroup) : SubpassBuilder :=
  ⟨b.groups ++ [g], b.colors, b.depthStencil⟩

def SubpassBuilder.with_color (b : SubpassBuilder) (c : Nat) : SubpassBuilder :=
  ⟨b.groups, b.colors ++ [c], b.depthStencil⟩

def SubpassBuilder.with_depth_stencil (b : SubpassBuilder) (d : Nat) : SubpassBuilder :=
  ⟨b.groups, b.colors, some d⟩

def SubpassBuilder.into_pass (b : SubpassBuilder) : Node :=
  Node.renderPass ⟨b.groups, b.colors, b.depthStencil⟩

/-- Modelled from the spec: the surface factory is an external collaborator
(`rendy::factory::Factory`), specified only at its interface boundary (spec
sections 6 and 7): `create_surface` may fail (SurfaceUnavailable condition,
e.g. the window has been destroyed) and `get_surface_format` answers the
format query. Responses are indexed by a per-operation call counter so that
distinct calls may observe distinct answers (as in the spec's mocked-factory
property). -/
structure Factory where
  surfaceResponses : Nat → Option Surface
  surfaceCount : Nat
  formatResponses : Nat → Format
  queryCount : Nat

def Factory.create_surface (f : Factory) : Option Surface × Factory :=
  (f.surfaceResponses f.surfaceCount,
    ⟨f.surfaceResponses, f.surfaceCount + 1, f.formatResponses, f.queryCount⟩)

def Factory.get_surface_format (f : Factory) (_srf : Surface) : Format × Factory :=
  (f.formatResponses f.queryCount,
    ⟨f.surfaceResponses, f.surfaceCount, f.formatResponses, f.queryCount + 1⟩)

/-- Failure modes of `builder` (spec section 7): the fatal missing-dimensions
programming error (`unwrap` on `self.dimensions`) and the recoverable
surface-unavailable condition. -/
inductive BuildError where
  | programmingError : BuildError
  | surfaceUnavailable : BuildError
deriving DecidableEq, Repr

/-- The `ExampleGraph` controller state: cached dimensions, cached surface
format, and the dirty flag. -/
structure ExampleGraph where
  dimensions : Option ScreenDimensions
  surface_format : Option Format
  dirty : Bool
deriving DecidableEq, Repr

/-- `#[derive(Default)]`: both caches absent, dirty false. -/
def ExampleGraph.default : ExampleGraph := ⟨none, none, false⟩

/-- `ExampleGraph::rebuild`: compare the freshly observed dimensions with the
cached ones; on any difference record the new value, mark dirty, and defer
(return false); on equality report the dirty flag unchanged. -/
def ExampleGraph.rebuild (s : ExampleGraph) (new_dimensions : Option ScreenDimensions) :
    Bool × ExampleGraph :=
  if s.dimensions ≠ new_dimensions then
    (false, ⟨new_dimensions, s.surface_format, true⟩)
  else
    (s.dirty, s)

/-- `ExampleGraph::builder`: clear `dirty`, create the surface, fetch (and on
first use cache) the surface format, unwrap the cached dimensions, then build
the graph: color image, depth image, debug-lines render pass, present node
depending on the render pass. Returns the graph (or error) together with the
updated controller state and factory. -/
def ExampleGraph.builder (s : ExampleGraph) (factory : Factory) :
    Except BuildError GraphBuilderM × ExampleGraph × Factory :=
  let s1 : ExampleGraph := ⟨s.dimensions, s.surface_format, false⟩
  let step := factory.create_surface
  match step.1 with
  | none => (Except.error BuildError.surfaceUnavailable, s1, step.2)
  | some surface =>
    let fmtStep :=
      match s1.surface_format with
      | some fmt => (fmt, s1, step.2)
      | none =>
        let q := step.2.get_surface_format surface
        (q.1, ⟨s1.dimensions, some q.1, s1.dirty⟩, q.2)
    let surface_format := fmtStep.1
    let s2 := fmtStep.2.1
    let factory2 := fmtStep.2.2
    match s2.dimensions with
    | none => (Except.error BuildError.programmingError, s2, factory2)
    | some dimensions =>
      let window_kind :=
        ImageKind.D2 (f32ToU32 dimensions.width) (f32ToU32 dimensions.height) 1 1
      let gb0 := GraphBuilderM.new
      let c := gb0.create_image window_kind 1 surface_format
        (some (ClearValue.color 0 0 0 1))
      let color := c.1
      let d := c.2.create_image window_kind 1 Format.D32Sfloat
        (some (ClearValue.depthStencil 1 0))
      let depth := d.1
      let op := d.2.add_node
        ((((SubpassBuilder.new.with_group RenderGroup.drawDebugLines).with_color
            color).with_depth_stencil depth).into_pass)
      let pr := op.2.add_node (Node.present surface color [op.1])
      (Except.ok pr.2, s2, factory2)

/-- Feed a list of per-tick dimension observations through successive
`rebuild` calls, collecting the returned booleans. -/
def runRebuild (s : ExampleGraph) : List (Option ScreenDimensions) → List Bool
  | [] => []
  | d :: ds =>
    let r := s.rebuild d
    r.1 :: runRebuild r.2 ds

/-- Controller state before tick `i`, for an infinite observation sequence,
starting from the default state with no intervening `builder` calls. -/
def stateAt (d : Nat → Option ScreenDimensions) : Nat → ExampleGraph
  | 0 => ExampleGraph.default
  | i + 1 => ((stateAt d i).rebuild (d i)).2

/-- The boolean returned by the `rebuild` call of tick `i`. -/
def outputAt (d : Nat → Option ScreenDimensions) (i : Nat) : Bool :=
  ((stateAt d i).rebuild (d i)).1

/-- The observation of the tick before tick `i` (absent before tick 0). -/
def prevObs (d : Nat → Option ScreenDimensions) : Nat → Option ScreenDimensions
  | 0 => none
  | j + 1 => d j

/-! ### Helper lemmas about `rebuild` -/

lemma rebuild_snd_dimensions (s : ExampleGraph) (o : Option ScreenDimensions) :
    (s.rebuild o).2.dimensions = o := by
  unfold ExampleGraph.rebuild
  split
  · rfl
  · next h => exact not_not.mp h

lemma rebuild_snd_surface_format (s : ExampleGraph) (o : Option ScreenDimensions) :
    (s.rebuild o).2.surface_format = s.surface_format := by
  unfold ExampleGraph.rebuild
  split <;> rfl

lemma rebuild_snd_dirty (s : ExampleGraph) (o : Option ScreenDimensions) :
    (s.rebuild o).2.dirty = (decide (s.dimensions ≠ o) || s.dirty) := by
  unfold ExampleGraph.rebuild
  split
  · next h => simp [h]
  · next h => simp [h]

lemma rebuild_fst (s : ExampleGraph) (o : Option ScreenDimensions) :
    (s.rebuild o).1 = (decide (s.dimensions = o) && s.dirty) := by
  unfold ExampleGraph.rebuild
  split
  · next h => simp [h]
  · next h => simp [not_not.mp h]

/-! ### Helper lemmas about the tick sequence -/

lemma stateAt_dimensions (d : Nat → Option ScreenDimensions) (i : Nat) :
    (stateAt d i).dimensions = prevObs d i := by
  cases i with
  | zero => rfl
  | succ j => exact rebuild_snd_dimensions _ _

lemma stateAt_dirty (d : Nat → Option ScreenDimensions) :
    ∀ i, ((stateAt d i).dirty = true ↔ ∃ j, j < i ∧ d j ≠ prevObs d j)
  | 0 => by simp [stateAt, ExampleGraph.default]
  | i + 1 => by
    rw [stateAt, rebuild_snd_dirty, stateAt_dimensions]
    simp only [Bool.or_eq_true, decide_eq_true_eq, stateAt_dirty d i]
    constructor
    · rintro (h | ⟨j, hj, hne⟩)
      · exact ⟨i, Nat.lt_succ_self i, Ne.symm h⟩
      · exact ⟨j, Nat.lt_succ_of_lt hj, hne⟩
    · rintro ⟨j, hj, hne⟩
      rcases Nat.lt_succ_iff_lt_or_eq.mp hj with h | rfl
      · exact Or.inr ⟨j, h, hne⟩
      · exact Or.inl (Ne.symm hne)

/-! ### Helper lemmas about `builder` -/

lemma builder_surface_unavailable (s : ExampleGraph) (f : Factory)
    (hsr : f.surfaceResponses f.surfaceCount = none) :
    s.builder f =
      (Except.error BuildError.surfaceUnavailable,
       ⟨s.dimensions, s.surface_format, false⟩,
       ⟨f.surfaceResponses, f.surfaceCount + 1, f.formatResponses, f.queryCount⟩) := by
  simp [ExampleGraph.builder, Factory.create_surface, hsr]

lemma builder_no_dims (sfmt : Option Format) (dir : Bool) (f : Factory) (srf : Surface)
    (hsr : f.surfaceResponses f.surfaceCount = some srf) :
    (ExampleGraph.builder ⟨none, sfmt, dir⟩ f).1 = Except.error BuildError.programmingError := by
  rcases sfmt with _ | φ <;>
    simp [ExampleGraph.builder, Factory.create_surface, Factory.get_surface_format, hsr]

lemma builder_success_fresh (dims : ScreenDimensions) (dir : Bool) (f : Factory) (srf : Surface)
    (hsr : f.surfaceResponses f.surfaceCount = some srf) :
    ExampleGraph.builder ⟨some dims, none, dir⟩ f =
      (Except.ok
        ⟨[⟨ImageKind.D2 (f32ToU32 dims.width) (f32ToU32 dims.height) 1 1, 1,
            f.formatResponses f.queryCount, some (ClearValue.color 0 0 0 1)⟩,
          ⟨ImageKind.D2 (f32ToU32 dims.width) (f32ToU32 dims.height) 1 1, 1,
            Format.D32Sfloat, some (ClearValue.depthStencil 1 0)⟩],
         [Node.renderPass ⟨[RenderGroup.drawDebugLines], [0], some 1⟩,
          Node.present srf 0 [0]]⟩,
       ⟨some dims, some (f.formatResponses f.queryCount), false⟩,
       ⟨f.surfaceResponses, f.surfaceCount + 1, f.formatResponses, f.queryCount + 1⟩) := by
  simp [ExampleGraph.builder, Factory.create_surface, Factory.get_surface_format, hsr,
    GraphBuilderM.new, GraphBuilderM.create_image, GraphBuilderM.add_node,
    SubpassBuilder.new, SubpassBuilder.with_group, SubpassBuilder.with_color,
    SubpassBuilder.with_depth_stencil, SubpassBuilder.into_pass]

lemma builder_success_cached (dims : ScreenDimensions) (φ : Format) (dir : Bool)
    (f : Factory) (srf : Surface)
    (hsr : f.surfaceResponses f.surfaceCount = some srf) :
    ExampleGraph.builder ⟨some dims, some φ, dir⟩ f =
      (Except.ok
        ⟨[⟨ImageKind.D2 (f32ToU32 dims.width) (f32ToU32 dims.height) 1 1, 1,
            φ, some (ClearValue.color 0 0 0 1)⟩,
          ⟨ImageKind.D2 (f32ToU32 dims.width) (f32ToU32 dims.height) 1 1, 1,
            Format.D32Sfloat, some (ClearValue.depthStencil 1 0)⟩],
         [Node.renderPass ⟨[RenderGroup.drawDebugLines], [0], some 1⟩,
          Node.present srf 0 [0]]⟩,
       ⟨some dims, some φ, false⟩,
       ⟨f.surfaceResponses, f.surfaceCount + 1, f.formatResponses, f.queryCount⟩) := by
  simp [ExampleGraph.builder, Factory.create_surface, hsr,
    GraphBuilderM.new, GraphBuilderM.create_image, GraphBuilderM.add_node,
    SubpassBuilder.new, SubpassBuilder.with_group, SubpassBuilder.with_color,
    SubpassBuilder.with_depth_stencil, SubpassBuilder.into_pass]

lemma builder_snd_dirty (s : ExampleGraph) (f : Factory) :
    ((s.builder f).2.1).dirty = false := by
  obtain ⟨dims, sfmt, dir⟩ := s
  rcases hsr : f.surfaceResponses f.surfaceCount with _ | srf
  · rw [builder_surface_unavailable _ f hsr]
  · rcases dims with _ | d
    · rcases sfmt with _ | φ <;>
        simp [ExampleGraph.builder, Factory.create_surface, Factory.get_surface_format, hsr]
    · rcases sfmt with _ | φ
      · rw [builder_success_fresh d dir f srf hsr]
      · rw [builder_success_cached d φ dir f srf hsr]

lemma builder_snd_dimensions (s : ExampleGraph) (f : Factory) :
    ((s.builder f).2.1).dimensions = s.dimensions := by
  obtain ⟨dims, sfmt, dir⟩ := s
  rcases hsr : f.surfaceResponses f.surfaceCount with _ | srf
  · rw [builder_surface_unavailable _ f hsr]
  · rcases dims with _ | d
    · rcases sfmt with _ | φ <;>
        simp [ExampleGraph.builder, Factory.create_surface, Factory.get_surface_format, hsr]
    · rcases sfmt with _ | φ
      · rw [builder_success_fresh d dir f srf hsr]
      · rw [builder_success_cached d φ dir f srf hsr]

lemma builder_ok_inv (s : ExampleGraph) (f : Factory) (g : GraphBuilderM)
    (h : (s.builder f).1 = Except.ok g) :
    ∃ d srf φ, s.dimensions = some d ∧
      f.surfaceResponses f.surfaceCount = some srf ∧
      ((s.builder f).2.1).surface_format = some φ ∧
      g = ⟨[⟨ImageKind.D2 (f32ToU32 d.width) (f32ToU32 d.height) 1 1, 1, φ,
              some (ClearValue.color 0 0 0 1)⟩,
            ⟨ImageKind.D2 (f32ToU32 d.width) (f32ToU32 d.height) 1 1, 1, Format.D32Sfloat,
              some (ClearValue.depthStencil 1 0)⟩],
           [Node.renderPass ⟨[RenderGroup.drawDebugLines], [0], some 1⟩,
            Node.present srf 0 [0]]⟩ := by
  obtain ⟨dims, sfmt, dir⟩ := s
  rcases hsr : f.surfaceResponses f.surfaceCount with _ | srf
  · rw [builder_surface_unavailable _ f hsr] at h
    exact absurd h (by simp)
  · rcases dims with _ | d
    · rw [builder_no_dims sfmt dir f srf hsr] at h
      exact absurd h (by simp)
    · rcases sfmt with _ | φ
      · rw [builder_success_fresh d dir f srf hsr] at h
        rw [builder_success_fresh d dir f srf hsr]
        exact ⟨d, srf, f.formatResponses f.queryCount, rfl, rfl, rfl,
          (Except.ok.injEq _ _).mp h.symm⟩
      · rw [builder_success_cached d φ dir f srf hsr] at h
        rw [builder_success_cached d φ dir f srf hsr]
        exact ⟨d, srf, φ, rfl, rfl, rfl, (Except.ok.injEq _ _).mp h.symm⟩

/-! ### Claim theorems -/

/-- Claim C1: a single `rebuild` (shouldRebuild) call: if the observed
dimensions differ by value from the cached ones (including present/absent
mismatches) it caches the new value, sets dirty, and returns false; if they
are equal it returns the current dirty flag and changes nothing. -/
theorem rebuild_single_call_spec (s : ExampleGraph) (o : Option ScreenDimensions) :
    s.rebuild o =
      if o = s.dimensions then (s.dirty, s)
      else (false, ⟨o, s.surface_format, true⟩) := by
  by_cases h : s.dimensions = o
  · simp [ExampleGraph.rebuild, h]
  · have h2 : ¬(o = s.dimensions) := fun he => h he.symm
    simp [ExampleGraph.rebuild, h, h2]

/-- The observation sequence [none, (800,600), (800,600), (800,600)] refutes
Claim C2 as stated: with no intervening build, tick 3 returns true (dirty is
never consumed), while the claimed condition `d3 = d2 ∧ d3 ≠ d1` (and the
`i = 1` special case) is false there. -/
def seqC2 : Nat → Option ScreenDimensions :=
  fun i => if i = 0 then none else some ⟨800, 600⟩

/-- Claim C2, counterexample: on `seqC2` the code returns true at tick 3 but
the claim's condition fails at tick 3. -/
theorem debounce_claim_counterexample :
    outputAt seqC2 3 = true ∧
    ¬((seqC2 3 = seqC2 2 ∧ seqC2 3 ≠ seqC2 1) ∨ (3 = 1 ∧ seqC2 1 = seqC2 0)) := by
  decide

/-- Claim C2 (amended): with no intervening build, `shouldRebuild` returns
true on tick i (i ≥ 1) iff the observation equals the previous tick's
observation and some earlier tick observed a change (the observation before
tick 0 being absent). In particular it fires one tick after stabilization,
but keeps firing on every later stable tick until a build consumes the dirty
flag — not only once per stabilization. -/
theorem debounce_amended (d : Nat → Option ScreenDimensions) (i : Nat) (hi : 1 ≤ i) :
    (outputAt d i = true ↔
      (d i = d (i - 1) ∧ ∃ j, j < i ∧ d j ≠ prevObs d j)) := by
  obtain ⟨k, rfl⟩ : ∃ k, i = k + 1 := ⟨i - 1, (Nat.succ_pred_eq_of_pos hi).symm⟩
  have h1 : prevObs d (k + 1) = d k := rfl
  rw [outputAt, rebuild_fst, stateAt_dimensions, h1, Nat.add_sub_cancel]
  simp only [Bool.and_eq_true, decide_eq_true_eq, stateAt_dirty]
  constructor
  · rintro ⟨he, hd⟩
    exact ⟨he.symm, hd⟩
  · rintro ⟨he, hd⟩
    exact ⟨he.symm, hd⟩

/-- Claim C2 (amended), witness at the all-absent sequence and tick 1. -/
theorem debounce_amended_witness :
    (1 ≤ 1) ∧
    (outputAt (fun _ => (none : Option ScreenDimensions)) 1 = true ↔
      ((fun _ : Nat => (none : Option ScreenDimensions)) 1 =
          (fun _ : Nat => (none : Option ScreenDimensions)) (1 - 1) ∧
        ∃ j, j < 1 ∧ (fun _ : Nat => (none : Option ScreenDimensions)) j ≠
          prevObs (fun _ => (none : Option ScreenDimensions)) j)) :=
  ⟨by decide, debounce_amended (fun _ => none) 1 (by decide)⟩

/-- Claim C3: from the initial state, the observations
[None, (800,600), (800,600), (1024,768)] yield exactly
[false, false, true, false]. -/
theorem rebuild_concrete_scenario :
    runRebuild ExampleGraph.default
      [none, some ⟨800, 600⟩, some ⟨800, 600⟩, some ⟨1024, 768⟩]
      = [false, false, true, false] := by
  decide

/-- Claim C4: with the surface available, `builder` fails with the
programming-error condition exactly when no dimensions were ever cached, and
returns a graph description whenever dimensions are present. -/
theorem builder_requires_dimensions (s : ExampleGraph) (f : Factory) (srf : Surface)
    (hsr : f.surfaceResponses f.surfaceCount = some srf) :
    (s.dimensions = none → (s.builder f).1 = Except.error BuildError.programmingError) ∧
    (s.dimensions ≠ none → ∃ g, (s.builder f).1 = Except.ok g) := by
  obtain ⟨dims, sfmt, dir⟩ := s
  rcases dims with _ | d
  · exact ⟨fun _ => builder_no_dims sfmt dir f srf hsr, fun hd => absurd rfl hd⟩
  · refine ⟨fun hd => by simp at hd, fun _ => ?_⟩
    rcases sfmt with _ | φ
    · exact ⟨_, by rw [builder_success_fresh d dir f srf hsr]⟩
    · exact ⟨_, by rw [builder_success_cached d φ dir f srf hsr]⟩

/-- Claim C4, witness: the missing-dimensions case errors, the
dimensions-present case succeeds, both with a working factory. -/
theorem builder_requires_dimensions_witness :
    (((ExampleGraph.default.builder
        ⟨fun n => some ⟨n⟩, 0, fun n => Format.other n, 0⟩).1
      = Except.error BuildError.programmingError) ∧
    (∃ g, (ExampleGraph.builder ⟨some ⟨800, 600⟩, none, false⟩
        ⟨fun n => some ⟨n⟩, 0, fun n => Format.other n, 0⟩).1 = Except.ok g)) :=
  ⟨(builder_requires_dimensions ExampleGraph.default
      ⟨fun n => some ⟨n⟩, 0, fun n => Format.other n, 0⟩ ⟨0⟩ rfl).1 rfl,
   (builder_requires_dimensions ⟨some ⟨800, 600⟩, none, false⟩
      ⟨fun n => some ⟨n⟩, 0, fun n => Format.other n, 0⟩ ⟨0⟩ rfl).2 (by decide)⟩

/-- Claim C5, counterexample: a build that fails with the surface-unavailable
condition, starting from a dirty controller, leaves the controller with
`dirty = false` — the failing call does set `dirty := false`, contrary to the
claim. -/
theorem builder_failure_dirty_counterexample :
    (ExampleGraph.builder ⟨some ⟨800, 600⟩, none, true⟩
        ⟨fun _ => none, 0, fun n => Format.other n, 0⟩).1
      = Except.error BuildError.surfaceUnavailable ∧
    ((ExampleGraph.builder ⟨some ⟨800, 600⟩, none, true⟩
        ⟨fun _ => none, 0, fun n => Format.other n, 0⟩).2.1).dirty = false := by
  exact ⟨rfl, rfl⟩

/-- Claim C5 (amended): when `builder` fails with the surface-unavailable
condition, the cached dimensions and cached surface format are unchanged, but
`dirty` has been set to false (build clears it unconditionally on entry), so
no retry is scheduled until the dimensions change again. -/
theorem builder_failure_state_amended (s : ExampleGraph) (f : Factory)
    (h : (s.builder f).1 = Except.error BuildError.surfaceUnavailable) :
    ((s.builder f).2.1).dimensions = s.dimensions ∧
    ((s.builder f).2.1).surface_format = s.surface_format ∧
    ((s.builder f).2.1).dirty = false := by
  refine ⟨builder_snd_dimensions s f, ?_, builder_snd_dirty s f⟩
  obtain ⟨dims, sfmt, dir⟩ := s
  rcases hsr : f.surfaceResponses f.surfaceCount with _ | srf
  · rw [builder_surface_unavailable _ f hsr]
  · exfalso
    rcases dims with _ | d
    · rw [builder_no_dims sfmt dir f srf hsr] at h
      exact absurd h (by simp)
    · rcases sfmt with _ | φ
      · rw [builder_success_fresh d dir f srf hsr] at h
        exact absurd h (by simp)
      · rw [builder_success_cached d φ dir f srf hsr] at h
        exact absurd h (by simp)

/-- Claim C5 (amended), witness at a concrete failing build. -/
theorem builder_failure_state_amended_witness :
    ((ExampleGraph.builder ⟨some ⟨800, 600⟩, none, true⟩
        ⟨fun _ => none, 0, fun n => Format.other n, 0⟩).2.1).dimensions
      = (⟨some ⟨800, 600⟩, none, true⟩ : ExampleGraph).dimensions ∧
    ((ExampleGraph.builder ⟨some ⟨800, 600⟩, none, true⟩
        ⟨fun _ => none, 0, fun n => Format.other n, 0⟩).2.1).surface_format
      = (⟨some ⟨800, 600⟩, none, true⟩ : ExampleGraph).surface_format ∧
    ((ExampleGraph.builder ⟨some ⟨800, 600⟩, none, true⟩
        ⟨fun _ => none, 0, fun n => Format.other n, 0⟩).2.1).dirty = false :=
  builder_failure_state_amended ⟨some ⟨800, 600⟩, none, true⟩
    ⟨fun _ => none, 0, fun n => Format.other n, 0⟩ rfl

/-- Claim C6: a successful `builder` call leaves `dirty = false`, so an
immediately following `rebuild` call observing the same (unchanged)
dimensions returns false. -/
theorem builder_clears_dirty_for_next_rebuild (s : ExampleGraph) (f : Factory)
    (g : GraphBuilderM) (h : (s.builder f).1 = Except.ok g) :
    ((s.builder f).2.1).dirty = false ∧
    (((s.builder f).2.1).rebuild s.dimensions).1 = false := by
  refine ⟨builder_snd_dirty s f, ?_⟩
  rw [rebuild_fst, builder_snd_dimensions, builder_snd_dirty]
  simp

/-- Claim C6, witness at a concrete successful build. -/
theorem builder_clears_dirty_witness :
    ((ExampleGraph.builder ⟨some ⟨800, 600⟩, none, true⟩
        ⟨fun n => some ⟨n⟩, 0, fun n => Format.other n, 0⟩).2.1).dirty = false ∧
    (((ExampleGraph.builder ⟨some ⟨800, 600⟩, none, true⟩
        ⟨fun n => some ⟨n⟩, 0, fun n => Format.other n, 0⟩).2.1).rebuild
      (⟨some ⟨800, 600⟩, none, true⟩ : ExampleGraph).dimensions).1 = false :=
  builder_clears_dirty_for_next_rebuild ⟨some ⟨800, 600⟩, none, true⟩
    ⟨fun n => some ⟨n⟩, 0, fun n => Format.other n, 0⟩
    ⟨[⟨ImageKind.D2 800 600 1 1, 1, Format.other 0, some (ClearValue.color 0 0 0 1)⟩,
      ⟨ImageKind.D2 800 600 1 1, 1, Format.D32Sfloat, some (ClearValue.depthStencil 1 0)⟩],
     [Node.renderPass ⟨[RenderGroup.drawDebugLines], [0], some 1⟩,
      Node.present ⟨0⟩ 0 [0]]⟩ rfl

/-- Claim C7: with the surface format not yet cached and a factory whose
format query answers differently on each call, two successive `builder` calls
both produce descriptions whose color image uses the first answered format
(the depth image keeps its fixed format), and the format query is made
exactly once across both calls. -/
theorem surface_format_cached_once (dims : ScreenDimensions) (dir : Bool)
    (sresp : Nat → Option Surface) (fresp : Nat → Format) (srf0 srf1 : Surface)
    (hs0 : sresp 0 = some srf0) (hs1 : sresp 1 = some srf1)
    (hne : fresp 0 ≠ fresp 1) :
    (∃ g1, (ExampleGraph.builder ⟨some dims, none, dir⟩ ⟨sresp, 0, fresp, 0⟩).1
        = Except.ok g1 ∧
      g1.images.map ImageInfo.format = [fresp 0, Format.D32Sfloat]) ∧
    (∃ g2, (ExampleGraph.builder
        (ExampleGraph.builder ⟨some dims, none, dir⟩ ⟨sresp, 0, fresp, 0⟩).2.1
        (ExampleGraph.builder ⟨some dims, none, dir⟩ ⟨sresp, 0, fresp, 0⟩).2.2).1
        = Except.ok g2 ∧
      g2.images.map ImageInfo.format = [fresp 0, Format.D32Sfloat]) ∧
    ((ExampleGraph.builder
        (ExampleGraph.builder ⟨some dims, none, dir⟩ ⟨sresp, 0, fresp, 0⟩).2.1
        (ExampleGraph.builder ⟨some dims, none, dir⟩ ⟨sresp, 0, fresp, 0⟩).2.2).2.2).queryCount
      = 1 := by
  have h1 := builder_success_fresh dims dir ⟨sresp, 0, fresp, 0⟩ srf0 hs0
  simp only [h1]
  have h2 := builder_success_cached dims (fresp 0) false ⟨sresp, 1, fresp, 1⟩ srf1 hs1
  simp only [h2]
  exact ⟨⟨_, rfl, rfl⟩, ⟨_, rfl, rfl⟩, trivial⟩

/-- Claim C7, witness with a factory answering a different format on every
query. -/
theorem surface_format_cached_once_witness :
    (∃ g1, (ExampleGraph.builder ⟨some ⟨800, 600⟩, none, false⟩
        ⟨fun n => some ⟨n⟩, 0, fun n => Format.other n, 0⟩).1 = Except.ok g1 ∧
      g1.images.map ImageInfo.format = [Format.other 0, Format.D32Sfloat]) ∧
    (∃ g2, (ExampleGraph.builder
        (ExampleGraph.builder ⟨some ⟨800, 600⟩, none, false⟩
          ⟨fun n => some ⟨n⟩, 0, fun n => Format.other n, 0⟩).2.1
        (ExampleGraph.builder ⟨some ⟨800, 600⟩, none, false⟩
          ⟨fun n => some ⟨n⟩, 0, fun n => Format.other n, 0⟩).2.2).1 = Except.ok g2 ∧
      g2.images.map ImageInfo.format = [Format.other 0, Format.D32Sfloat]) ∧
    ((ExampleGraph.builder
        (ExampleGraph.builder ⟨some ⟨800, 600⟩, none, false⟩
          ⟨fun n => some ⟨n⟩, 0, fun n => Format.other n, 0⟩).2.1
        (ExampleGraph.builder ⟨some ⟨800, 600⟩, none, false⟩
          ⟨fun n => some ⟨n⟩, 0, fun n => Format.other n, 0⟩).2.2).2.2).queryCount = 1 :=
  surface_format_cached_once ⟨800, 600⟩ false (fun n => some ⟨n⟩)
    (fun n => Format.other n) ⟨0⟩ ⟨1⟩ rfl rfl (by decide)

/-- Claim C8: in every description produced by a successful `builder` call,
each present node's dependency list contains a render-pass node that writes
(as a color attachment) the image the present node consumes. -/
theorem present_depends_on_draw (s : ExampleGraph) (f : Factory) (g : GraphBuilderM)
    (h : (s.builder f).1 = Except.ok g) :
    ∀ srf img deps, Node.present srf img deps ∈ g.nodes →
      ∃ q sp, q ∈ deps ∧ g.nodes.get? q = some (Node.renderPass sp) ∧ img ∈ sp.colors := by
  obtain ⟨d, srf0, φ, hdim, hsr, hfmt, rfl⟩ := builder_ok_inv s f g h
  intro srf img deps hmem
  simp only [List.mem_cons, List.not_mem_nil, or_false] at hmem
  rcases hmem with hmem | hmem
  · exact absurd hmem (by simp)
  · obtain ⟨rfl, rfl, rfl⟩ := Node.present.inj hmem
    exact ⟨0, ⟨[RenderGroup.drawDebugLines], [0], some 1⟩, by simp, rfl, by simp⟩

/-- Claim C8, witness at a concrete successful build and its present node. -/
theorem present_depends_on_draw_witness :
    ∃ q sp, q ∈ [0] ∧
      (⟨[⟨ImageKind.D2 800 600 1 1, 1, Format.other 0, some (ClearValue.color 0 0 0 1)⟩,
         ⟨ImageKind.D2 800 600 1 1, 1, Format.D32Sfloat, some (ClearValue.depthStencil 1 0)⟩],
        [Node.renderPass ⟨[RenderGroup.drawDebugLines], [0], some 1⟩,
         Node.present ⟨0⟩ 0 [0]]⟩ : GraphBuilderM).nodes.get? q
        = some (Node.renderPass sp) ∧ 0 ∈ sp.colors :=
  present_depends_on_draw ⟨some ⟨800, 600⟩, none, true⟩
    ⟨fun n => some ⟨n⟩, 0, fun n => Format.other n, 0⟩
    ⟨[⟨ImageKind.D2 800 600 1 1, 1, Format.other 0, some (ClearValue.color 0 0 0 1)⟩,
      ⟨ImageKind.D2 800 600 1 1, 1, Format.D32Sfloat, some (ClearValue.depthStencil 1 0)⟩],
     [Node.renderPass ⟨[RenderGroup.drawDebugLines], [0], some 1⟩,
      Node.present ⟨0⟩ 0 [0]]⟩ rfl ⟨0⟩ 0 [0] (by decide)

/-- Claim C9: a successful build returns, in creation order: a 2D color image
sized to the cached dimensions with one mip level, the cached surface format,
and a fixed background clear color; a 2D depth image of the same size with
the fixed `D32Sfloat` format, one mip level, and a fixed depth/stencil clear;
a render-pass node with exactly one draw group writing the color image as
color attachment and the depth image as depth-stencil attachment; and a
present node consuming the color image. -/
theorem builder_graph_structure (s : ExampleGraph) (f : Factory) (d : ScreenDimensions)
    (srf : Surface) (hdim : s.dimensions = some d)
    (hsr : f.surfaceResponses f.surfaceCount = some srf) :
    ∃ φ, ((s.builder f).2.1).surface_format = some φ ∧
      (s.builder f).1 = Except.ok
        ⟨[⟨ImageKind.D2 (f32ToU32 d.width) (f32ToU32 d.height) 1 1, 1, φ,
            some (ClearValue.color 0 0 0 1)⟩,
          ⟨ImageKind.D2 (f32ToU32 d.width) (f32ToU32 d.height) 1 1, 1, Format.D32Sfloat,
            some (ClearValue.depthStencil 1 0)⟩],
         [Node.renderPass ⟨[RenderGroup.drawDebugLines], [0], some 1⟩,
          Node.present srf 0 [0]]⟩ := by
  obtain ⟨dims, sfmt, dir⟩ := s
  rcases dims with _ | d0
  · exact absurd hdim (by simp)
  · have hd : d0 = d := by simpa using hdim
    subst hd
    rcases sfmt with _ | φ
    · rw [builder_success_fresh d0 dir f srf hsr]
      exact ⟨f.formatResponses f.queryCount, rfl, rfl⟩
    · rw [builder_success_cached d0 φ dir f srf hsr]
      exact ⟨φ, rfl, rfl⟩

/-- Claim C9, witness at a concrete successful build. -/
theorem builder_graph_structure_witness :
    ∃ φ, ((ExampleGraph.builder ⟨some ⟨800, 600⟩, none, true⟩
        ⟨fun n => some ⟨n⟩, 0, fun n => Format.other n, 0⟩).2.1).surface_format = some φ ∧
      (ExampleGraph.builder ⟨some ⟨800, 600⟩, none, true⟩
        ⟨fun n => some ⟨n⟩, 0, fun n => Format.other n, 0⟩).1 = Except.ok
        ⟨[⟨ImageKind.D2 (f32ToU32 (⟨800, 600⟩ : ScreenDimensions).width)
             (f32ToU32 (⟨800, 600⟩ : ScreenDimensions).height) 1 1, 1, φ,
            some (ClearValue.color 0 0 0 1)⟩,
          ⟨ImageKind.D2 (f32ToU32 (⟨800, 600⟩ : ScreenDimensions).width)
             (f32ToU32 (⟨800, 600⟩ : ScreenDimensions).height) 1 1, 1, Format.D32Sfloat,
            some (ClearValue.depthStencil 1 0)⟩],
         [Node.renderPass ⟨[RenderGroup.drawDebugLines], [0], some 1⟩,
          Node.present ⟨0⟩ 0 [0]]⟩ :=
  builder_graph_structure ⟨some ⟨800, 600⟩, none, true⟩
    ⟨fun n => some ⟨n⟩, 0, fun n => Format.other n, 0⟩ ⟨800, 600⟩ ⟨0⟩ rfl rfl

/-- Claim C10: `builder` clears the dirty flag before anything else, so after
any `builder` call — successful or failing, the missing-dimensions case
included — the controller state has `dirty = false`. -/
theorem builder_sets_dirty_false_first (s : ExampleGraph) (f : Factory) :
    ((s.builder f).2.1).dirty = false :=
  builder_snd_dirty s f
